import Mathlib

/-!
Verification development for the payfirma-sdk TypeScript repository.

The definitions below are a shallow embedding of the SDK's core:
the camelCase/snake_case key transformers (src/utils/transformers.ts),
the error taxonomy and classifier (src/types/errors.ts, PlanService.handleError),
the OAuth token store (src/services/AuthService.ts) and the SDK
configuration validator (src/PayfirmaSDK.ts).  JavaScript truthiness of
optional strings/numbers is modelled explicitly (empty string and zero are
falsy); machine time is an integer count of milliseconds.
-/

/-! ## ASCII character classes, as used by the regexes /[A-Z]/ and /_([a-z])/ -/

/-- The character class `[A-Z]` of the regex in `camelToSnake`. -/
def isUpperA (c : Char) : Bool := 65 ≤ c.toNat && c.toNat ≤ 90

/-- The character class `[a-z]` of the regex in `snakeToCamel`. -/
def isLowerA (c : Char) : Bool := 97 ≤ c.toNat && c.toNat ≤ 122

/-- An ASCII letter (used to state which keys round-trip). -/
def alphaChar (c : Char) : Bool := isUpperA c || isLowerA c

/-! ## String case conversion (src/utils/transformers.ts)

`camelToSnake` is `str.replace(/[A-Z]/g, letter => '_' + letter.toLowerCase())`:
every uppercase ASCII letter is replaced by an underscore followed by its
lowercase form.  `snakeToCamel` is `str.replace(/_([a-z])/g, (_, letter) =>
letter.toUpperCase())`: scanning left to right, each underscore immediately
followed by a lowercase ASCII letter is removed and that letter upper-cased;
other characters are copied. -/

/-- List-of-characters form of `camelToSnake` (transformers.ts lines 8-10). -/
def camelToSnakeL : List Char → List Char
  | [] => []
  | c :: cs =>
    if isUpperA c then '_' :: Char.toLower c :: camelToSnakeL cs
    else c :: camelToSnakeL cs

/-- `camelToSnake` from src/utils/transformers.ts. -/
def camelToSnake (s : String) : String := String.mk (camelToSnakeL s.data)

/-- List-of-characters form of `snakeToCamel` (transformers.ts lines 15-17).
The two-character lookahead mirrors the left-to-right, non-overlapping global
regex scan of `/_([a-z])/g`. -/
def snakeToCamelL : List Char → List Char
  | [] => []
  | [c] => [c]
  | a :: b :: rest =>
    if a = '_' ∧ isLowerA b then Char.toUpper b :: snakeToCamelL rest
    else a :: snakeToCamelL (b :: rest)

/-- `snakeToCamel` from src/utils/transformers.ts. -/
def snakeToCamel (s : String) : String := String.mk (snakeToCamelL s.data)

/-- Modelled from the spec: the snake_case to camelCase rule read as the spec
states it for claim C7 — "each underscore followed by a letter is removed and
that letter is upper-cased", for an arbitrary predicate picking out the
letters that trigger the rule.  The Boolean flag carries a pending,
not-yet-emitted underscore of the left-to-right scan. -/
def specGo (letterOk : Char → Bool) : Bool → List Char → List Char
  | false, [] => []
  | true, [] => ['_']
  | false, c :: cs =>
    if c = '_' then specGo letterOk true cs else c :: specGo letterOk false cs
  | true, c :: cs =>
    if letterOk c then Char.toUpper c :: specGo letterOk false cs
    else if c = '_' then '_' :: specGo letterOk true cs
    else '_' :: c :: specGo letterOk false cs

/-- Modelled from the spec: remove each underscore followed by any ASCII
letter, upper-casing that letter (the rule claim C7 asserts). -/
def snakeToCamelSpecAny (s : String) : String := String.mk (specGo alphaChar false s.data)

/-- Modelled from the spec (amended): remove each underscore followed by a
lowercase ASCII letter, upper-casing that letter. -/
def snakeToCamelSpecLower (s : String) : String := String.mk (specGo isLowerA false s.data)

/-! ## JSON-like values and the recursive key transformers

`transformKeysToSnake`/`transformKeysToCamel` (transformers.ts lines 22-59)
return scalars and null unchanged, map over arrays, and rebuild objects with
every key rewritten and every value transformed recursively. -/

mutual
inductive Json where
  | null : Json
  | boolVal (b : Bool) : Json
  | num (n : Int) : Json
  | str (s : String) : Json
  | arr (xs : JsonList) : Json
  | obj (kvs : JsonFields) : Json
deriving DecidableEq, Repr

inductive JsonList where
  | nil : JsonList
  | cons (hd : Json) (tl : JsonList) : JsonList
deriving DecidableEq, Repr

inductive JsonFields where
  | nil : JsonFields
  | cons (key : String) (val : Json) (tl : JsonFields) : JsonFields
deriving DecidableEq, Repr
end

mutual
/-- `transformKeysToSnake` from src/utils/transformers.ts lines 22-38. -/
def transformKeysToSnake : Json → Json
  | .null => .null
  | .boolVal b => .boolVal b
  | .num n => .num n
  | .str s => .str s
  | .arr xs => .arr (transformKeysToSnakeList xs)
  | .obj kvs => .obj (transformKeysToSnakeFields kvs)

/-- The `obj.map(transformKeysToSnake)` branch for arrays. -/
def transformKeysToSnakeList : JsonList → JsonList
  | .nil => .nil
  | .cons x xs => .cons (transformKeysToSnake x) (transformKeysToSnakeList xs)

/-- The `Object.entries` loop of `transformKeysToSnake`. -/
def transformKeysToSnakeFields : JsonFields → JsonFields
  | .nil => .nil
  | .cons k v kvs =>
    .cons (camelToSnake k) (transformKeysToSnake v) (transformKeysToSnakeFields kvs)
end

mutual
/-- `transformKeysToCamel` from src/utils/transformers.ts lines 43-59. -/
def transformKeysToCamel : Json → Json
  | .null => .null
  | .boolVal b => .boolVal b
  | .num n => .num n
  | .str s => .str s
  | .arr xs => .arr (transformKeysToCamelList xs)
  | .obj kvs => .obj (transformKeysToCamelFields kvs)

/-- The `obj.map(transformKeysToCamel)` branch for arrays. -/
def transformKeysToCamelList : JsonList → JsonList
  | .nil => .nil
  | .cons x xs => .cons (transformKeysToCamel x) (transformKeysToCamelList xs)

/-- The `Object.entries` loop of `transformKeysToCamel`. -/
def transformKeysToCamelFields : JsonFields → JsonFields
  | .nil => .nil
  | .cons k v kvs =>
    .cons (snakeToCamel k) (transformKeysToCamel v) (transformKeysToCamelFields kvs)
end

mutual
/-- Every mapping key, at every depth, consists only of ASCII letters
(claim C6's hypothesis on the input). -/
def keysAlphaJson : Json → Bool
  | .null => true
  | .boolVal _ => true
  | .num _ => true
  | .str _ => true
  | .arr xs => keysAlphaList xs
  | .obj kvs => keysAlphaFields kvs

def keysAlphaList : JsonList → Bool
  | .nil => true
  | .cons x xs => keysAlphaJson x && keysAlphaList xs

def keysAlphaFields : JsonFields → Bool
  | .nil => true
  | .cons k v kvs => k.data.all alphaChar && keysAlphaJson v && keysAlphaFields kvs
end

mutual
/-- No mapping key, at any depth, contains an uppercase ASCII letter
(the shape of keys already in snake_case, used by claim C10). -/
def keysNoUpperJson : Json → Bool
  | .null => true
  | .boolVal _ => true
  | .num _ => true
  | .str _ => true
  | .arr xs => keysNoUpperList xs
  | .obj kvs => keysNoUpperFields kvs

def keysNoUpperList : JsonList → Bool
  | .nil => true
  | .cons x xs => keysNoUpperJson x && keysNoUpperList xs

def keysNoUpperFields : JsonFields → Bool
  | .nil => true
  | .cons k v kvs => k.data.all (fun c => !isUpperA c) && keysNoUpperJson v && keysNoUpperFields kvs
end

/-! ## JavaScript truthiness helpers -/

/-- Truthiness of an optional string: `undefined` and the empty string are
falsy (models `!!x` and `x || dflt` on `string | undefined`). -/
def truthyOptStr : Option String → Bool
  | none => false
  | some s => if s = "" then false else true

/-- `x || dflt` for an optional string. -/
def jsOrStr (o : Option String) (dflt : String) : String :=
  match o with
  | some s => if s = "" then dflt else s
  | none => dflt

/-- `x || dflt` for an optional number: `undefined` and `0` are falsy. -/
def jsOrNat (o : Option Nat) (dflt : Nat) : Nat :=
  match o with
  | some n => if n = 0 then dflt else n
  | none => dflt

/-! ## Error taxonomy (src/types/errors.ts)

Each SDK error class is modelled as a record carrying the class name, the
`code` string, the message, the optional HTTP status, optional details and
optional request id.  The original-cause chain is not modelled (no claim
inspects it). -/

/-- The decoded JSON error body of a failed HTTP response (`error.response.data`). -/
structure ErrBody where
  error : Option String
  message : Option String
deriving DecidableEq, Repr

/-- Structured `details` payloads attached by the error constructors. -/
inductive ErrDetails where
  | body (data : ErrBody)
  | resourceType (resourceType : String)
  | rateLimitInfo
deriving DecidableEq, Repr

/-- A constructed SDK error (the observable fields of `PayfirmaError` and its
subclasses). -/
structure PError where
  name : String
  code : String
  message : String
  statusCode : Option Nat
  details : Option ErrDetails
  requestId : Option String
deriving DecidableEq, Repr

/-- `AuthenticationError` (errors.ts lines 102-107): code AUTHENTICATION_FAILED, status 401. -/
def AuthenticationError (message : String) (details : Option ErrDetails)
    (requestId : Option String) : PError :=
  { name := "AuthenticationError", code := "AUTHENTICATION_FAILED", message,
    statusCode := some 401, details, requestId }

/-- `NetworkError` (errors.ts lines 112-117): code NETWORK_ERROR, no status. -/
def NetworkError (message : String) (requestId : Option String) : PError :=
  { name := "NetworkError", code := "NETWORK_ERROR", message,
    statusCode := none, details := none, requestId }

/-- `ApiError` (errors.ts lines 122-133). -/
def ApiError (message : String) (statusCode : Nat) (code : String)
    (details : Option ErrDetails) (requestId : Option String) : PError :=
  { name := "ApiError", code, message, statusCode := some statusCode, details, requestId }

/-- `ValidationError` (errors.ts lines 138-143): code VALIDATION_ERROR, status 400. -/
def ValidationError (message : String) (details : Option ErrDetails)
    (requestId : Option String) : PError :=
  { name := "ValidationError", code := "VALIDATION_ERROR", message,
    statusCode := some 400, details, requestId }

/-- `PaymentError` (errors.ts lines 148-158): given code, status 402. -/
def PaymentError (message : String) (code : String) (details : Option ErrDetails)
    (requestId : Option String) : PError :=
  { name := "PaymentError", code, message, statusCode := some 402, details, requestId }

/-- `NotFoundError` (errors.ts lines 163-168): code TRANSACTION_NOT_FOUND, status 404,
details carry the resource type. -/
def NotFoundError (message : String) (resourceType : String)
    (requestId : Option String) : PError :=
  { name := "NotFoundError", code := "TRANSACTION_NOT_FOUND", message,
    statusCode := some 404, details := some (.resourceType resourceType), requestId }

/-- `RateLimitError` (errors.ts lines 173-198): code RATE_LIMIT_EXCEEDED, status 429. -/
def RateLimitError (message : String) (requestId : Option String) : PError :=
  { name := "RateLimitError", code := "RATE_LIMIT_EXCEEDED", message,
    statusCode := some 429, details := some .rateLimitInfo, requestId }

/-- `ConfigurationError` (errors.ts lines 203-208): code INVALID_CONFIGURATION, no status. -/
def ConfigurationError (message : String) (details : Option ErrDetails) : PError :=
  { name := "ConfigurationError", code := "INVALID_CONFIGURATION", message,
    statusCode := none, details, requestId := none }

/-- `ErrorResponse` (errors.ts lines 213-226), the input of the factory. -/
structure ErrorResponse where
  code : String
  message : String
  status : Option Nat
  details : Option ErrBody
  request_id : Option String
deriving DecidableEq, Repr

/-- Character-list helper for `String.replace(pattern, '')` with a string
pattern, which in JavaScript removes only the first occurrence. -/
def matchesAt : List Char → List Char → Bool
  | [], _ => true
  | _ :: _, [] => false
  | p :: ps, c :: cs => p = c && matchesAt ps cs

/-- Remove the first occurrence of `pat` from a character list. -/
def removeFirstL (pat : List Char) : List Char → List Char
  | [] => []
  | c :: cs =>
    if matchesAt pat (c :: cs) then (c :: cs).drop pat.length
    else c :: removeFirstL pat cs

/-- `code.replace('_NOT_FOUND', '')` from the factory's not-found branch. -/
def stripNotFound (s : String) : String :=
  String.mk (removeFirstL ("_NOT_FOUND").data s.data)

/-- `ErrorFactory.fromApiResponse` (errors.ts lines 235-267): dispatch on the
API's own error-code string; unmatched codes fall back to `ApiError` with
`status || 500`. -/
def ErrorFactory.fromApiResponse (r : ErrorResponse) : PError :=
  if r.code = "AUTHENTICATION_FAILED" ∨ r.code = "TOKEN_EXPIRED" ∨
      r.code = "INVALID_CREDENTIALS" then
    AuthenticationError r.message (r.details.map ErrDetails.body) r.request_id
  else if r.code = "VALIDATION_ERROR" ∨ r.code = "REQUIRED_FIELD_MISSING" ∨
      r.code = "INVALID_FORMAT" then
    ValidationError r.message (r.details.map ErrDetails.body) r.request_id
  else if r.code = "PAYMENT_DECLINED" ∨ r.code = "PAYMENT_FAILED" ∨
      r.code = "CARD_DECLINED" then
    PaymentError r.message r.code (r.details.map ErrDetails.body) r.request_id
  else if r.code = "RATE_LIMIT_EXCEEDED" then
    RateLimitError r.message r.request_id
  else if r.code = "TRANSACTION_NOT_FOUND" ∨ r.code = "CUSTOMER_NOT_FOUND" ∨
      r.code = "PLAN_NOT_FOUND" ∨ r.code = "INVOICE_NOT_FOUND" then
    NotFoundError r.message (stripNotFound r.code) r.request_id
  else
    ApiError r.message (jsOrNat r.status 500) r.code (r.details.map ErrDetails.body) r.request_id

/-- `ErrorFactory.networkError` (errors.ts lines 272-274). -/
def ErrorFactory.networkError (message : String) : PError :=
  NetworkError message none

/-! ## Service-boundary error classification (src/services/PlanService.ts lines 323-363) -/

/-- The observable part of a failed HTTP response attached to a thrown error
(`error.response`): status, decoded body, and the x-request-id header. -/
structure HttpFailureResponse where
  status : Nat
  data : Option ErrBody
  requestId : Option String
deriving DecidableEq, Repr

/-- The raw failure a service method catches: a response (HTTP error), or a
request with no response (network layer failure), or neither (local error,
e.g. the plain `Error` the HttpClient throws on timeout). -/
structure RawTransportError where
  response : Option HttpFailureResponse
  request : Bool
  message : String
deriving DecidableEq, Repr

/-- The `error.response` present, `data?.error` falsy fallback branch of
`PlanService.handleError`. -/
def PlanService.apiFallback (resp : HttpFailureResponse) : PError :=
  ErrorFactory.fromApiResponse
    { code := "API_ERROR",
      message := "Plan service error: " ++ toString resp.status,
      status := some resp.status, details := resp.data, request_id := resp.requestId }

/-- `PlanService.handleError` (PlanService.ts lines 323-363). -/
def PlanService.handleError (e : RawTransportError) : PError :=
  match e.response with
  | some resp =>
    match resp.data.bind (fun b => b.error) with
    | some code =>
      if code = "" then PlanService.apiFallback resp
      else
        ErrorFactory.fromApiResponse
          { code,
            message := jsOrStr (resp.data.bind (fun b => b.message)) ("Plan service error"),
            status := some resp.status, details := resp.data, request_id := resp.requestId }
    | none => PlanService.apiFallback resp
  | none =>
    if e.request then ErrorFactory.networkError ("Network error in plan service")
    else
      ErrorFactory.fromApiResponse
        { code := "UNKNOWN_ERROR", message := "Unknown error in plan service",
          status := none, details := none, request_id := none }

/-- The error the fetch-based `HttpClient.request` throws when the
AbortController fires after the configured timeout (apiClient.ts catch
block): a plain `Error` with neither a `response` nor a `request` field. -/
def HttpClient.timeoutError (timeoutMs : Nat) : RawTransportError :=
  { response := none, request := false,
    message := "Request timeout after " ++ toString timeoutMs ++ "ms" }

/-- A 404 outcome whose body carries the code CUSTOMER_NOT_FOUND and the
message "x" (the first input claim C4 names). -/
def notFoundOutcome (req : Bool) (msg : String) : RawTransportError :=
  { response := some { status := 404,
                       data := some { error := some ("CUSTOMER_NOT_FOUND"),
                                      message := some ("x") },
                       requestId := none },
    request := req, message := msg }

/-- A 500 outcome whose body carries the unknown code WEIRD_CODE (the second
input claim C4 names). -/
def weirdCodeOutcome (req : Bool) (msg : String) : RawTransportError :=
  { response := some { status := 500,
                       data := some { error := some ("WEIRD_CODE"),
                                      message := none },
                       requestId := none },
    request := req, message := msg }

/-- A network-layer failure: request sent, no response at all (the third
input claim C4 names). -/
def noResponseOutcome (msg : String) : RawTransportError :=
  { response := none, request := true, message := msg }

/-! ## Token store (src/services/AuthService.ts) -/

/-- `AuthCredentials`: the stored OAuth credentials. -/
structure AuthCredentials where
  access_token : String
  refresh_token : Option String
  expires_at : Int
  merchant_id : Option String
  scope : Option (List String)
deriving DecidableEq, Repr

/-- `TokenValidation`: the result record of `validateToken`. -/
structure TokenValidation where
  valid : Bool
  expires_at : Option Int
  reason : Option String
  needs_refresh : Option Bool
deriving DecidableEq, Repr

/-- The five-minute expiry buffer of `validateToken` in milliseconds. -/
def bufferTime : Int := 5 * 60 * 1000

/-- `AuthService.validateToken` (AuthService.ts lines 258-286): pure and
local; a total function of the stored credentials and the current time. -/
def validateToken (credentials : Option AuthCredentials) (now : Int) : TokenValidation :=
  match credentials with
  | none =>
    { valid := false, expires_at := none,
      reason := some ("No credentials available"), needs_refresh := none }
  | some c =>
    let expiresAt := c.expires_at
    let timeToExpiry := expiresAt - now
    if timeToExpiry ≤ bufferTime then
      { valid := false, expires_at := some expiresAt,
        reason := some ("Token expired or expiring soon"),
        needs_refresh := some (truthyOptStr c.refresh_token) }
    else
      { valid := true, expires_at := some expiresAt, reason := none, needs_refresh := none }

/-- The token response body of a successful `POST /oauth/token`. -/
structure TokenResponse where
  access_token : String
  refresh_token : Option String
  expires_in : Int
  merchant_id : Option String
  scope : Option String
deriving DecidableEq, Repr

/-- The credentials `refreshToken` stores on success:
`expires_at = Date.now() + expires_in * 1000`, scope split on spaces. -/
def credentialsFromToken (now : Int) (t : TokenResponse) : AuthCredentials :=
  { access_token := t.access_token,
    refresh_token := t.refresh_token,
    expires_at := now + t.expires_in * 1000,
    merchant_id := t.merchant_id,
    scope := t.scope.map (fun s => s.splitOn (" ")) }

/-- `refreshToken ⟦param⟧ || this.credentials?.refresh_token`: the token the
refresh grant uses, with JavaScript truthiness for the `||`. -/
def tokenToUse (param : Option String) (credentials : Option AuthCredentials) : Option String :=
  match param with
  | some s =>
    if s = "" then credentials.bind (fun c => c.refresh_token) else some s
  | none => credentials.bind (fun c => c.refresh_token)

/-- Sequential (single-caller) semantics of `AuthService.refreshToken`
(AuthService.ts lines 144-193): fails locally when no refresh token is
available, otherwise performs the network call (whose already-classified
outcome is the `net` argument) and replaces the stored credentials on
success.  Returns the call's result together with the credentials stored
afterwards.  The concurrent single-flight behaviour is modelled separately
by `stepEv` below. -/
def refreshToken (credentials : Option AuthCredentials) (param : Option String)
    (now : Int) (net : Except PError TokenResponse) :
    Except PError AuthCredentials × Option AuthCredentials :=
  if truthyOptStr (tokenToUse param credentials) = false then
    (.error (AuthenticationError ("No refresh token available") none none), credentials)
  else
    match net with
    | .ok t =>
      let c := credentialsFromToken now t
      (.ok c, some c)
    | .error e => (.error e, credentials)

/-- `this.credentials!.access_token`: reading the stored token through the
non-null assertion.  The `none` branch models the TypeError a null access
would raise at runtime; it is unreachable on the paths the claims cover. -/
def readStoredToken (credentials : Option AuthCredentials) :
    Except PError String × Option AuthCredentials :=
  match credentials with
  | some c => (.ok c.access_token, some c)
  | none =>
    (.error { name := "TypeError", code := "", message := "credentials is null",
              statusCode := none, details := none, requestId := none }, none)

/-- `AuthService.getValidToken` (AuthService.ts lines 291-305): returns the
stored token when valid, refreshes first when the validation asks for a
refresh, and otherwise throws an `AuthenticationError`. -/
def getValidToken (credentials : Option AuthCredentials) (now : Int)
    (net : Except PError TokenResponse) :
    Except PError String × Option AuthCredentials :=
  let validation := validateToken credentials now
  if validation.valid then readStoredToken credentials
  else if validation.needs_refresh = some true then
    match refreshToken credentials none now net with
    | (.ok _, credentials2) => readStoredToken credentials2
    | (.error e, credentials2) => (.error e, credentials2)
  else
    (.error (AuthenticationError ("No valid token available and cannot refresh") none none),
     credentials)

/-- The remote outcome of the best-effort `DELETE /oauth/revoke_token`. -/
inductive RevokeRemoteOutcome where
  | success
  | httpFailure (status : Nat)
  | networkFailure
deriving DecidableEq, Repr

/-- Result of `revokeToken`: the credentials stored afterwards, the value
returned to the caller, and whether the remote call was attempted. -/
structure RevokeResult where
  credentials : Option AuthCredentials
  returned : Except PError Unit
  remoteCallMade : Bool

/-- `AuthService.revokeToken` (AuthService.ts lines 223-239): early return
when no credentials are stored; otherwise the remote call is attempted, any
error is swallowed by the empty catch, and the finally block clears the
stored credentials. -/
def revokeToken (credentials : Option AuthCredentials)
    (remote : RevokeRemoteOutcome) : RevokeResult :=
  match credentials with
  | none => { credentials := none, returned := .ok (), remoteCallMade := false }
  | some _ =>
    match remote with
    | .success => { credentials := none, returned := .ok (), remoteCallMade := true }
    | .httpFailure _ => { credentials := none, returned := .ok (), remoteCallMade := true }
    | .networkFailure => { credentials := none, returned := .ok (), remoteCallMade := true }

/-! ## SDK configuration (src/PayfirmaSDK.ts) -/

/-- The optional per-instance base-URL overrides (`config.apiUrls`). -/
structure ApiUrlOverrides where
  auth : Option String
  gateway : Option String
deriving DecidableEq, Repr

/-- `PayfirmaSDKConfig`: client credentials, sandbox flag, timeout (ms). -/
structure PayfirmaSDKConfig where
  clientId : String
  clientSecret : String
  sandbox : Option Bool
  timeout : Option Int
  apiUrls : Option ApiUrlOverrides
deriving DecidableEq, Repr

/-- `Environment` (derived auth/gateway base URLs). -/
structure Environment where
  authUrl : String
  gatewayUrl : String
  name : String
deriving DecidableEq, Repr

/-- The guard `config.timeout && (config.timeout < 1000 || config.timeout >
300000)` of `validateConfig`, with JavaScript truthiness: an unset timeout
and a timeout of `0` are falsy, so the range test is skipped for them. -/
def timeoutGuard : Option Int → Bool
  | some t => if t ≠ 0 ∧ (t < 1000 ∨ t > 300000) then true else false
  | none => false

/-- `PayfirmaSDK.validateConfig` (PayfirmaSDK.ts lines 231-245). -/
def PayfirmaSDK.validateConfig (config : PayfirmaSDKConfig) : Except PError Unit :=
  if config.clientId = "" then
    .error (ConfigurationError ("Client ID is required") none)
  else if config.clientSecret = "" then
    .error (ConfigurationError ("Client Secret is required") none)
  else if timeoutGuard config.timeout then
    .error (ConfigurationError ("Timeout must be between 1000ms and 300000ms") none)
  else .ok ()

/-- `PayfirmaSDK.getEnvironment` (PayfirmaSDK.ts lines 250-268). -/
def PayfirmaSDK.getEnvironment (config : PayfirmaSDKConfig) (sandbox : Bool) : Environment :=
  if sandbox then
    { authUrl := jsOrStr (config.apiUrls.bind (fun u => u.auth)) ("https://sandbox-auth.payfirma.com"),
      gatewayUrl := jsOrStr (config.apiUrls.bind (fun u => u.gateway)) ("https://sandbox-apigateway.payfirma.com"),
      name := "sandbox" }
  else
    { authUrl := jsOrStr (config.apiUrls.bind (fun u => u.auth)) ("https://auth.payfirma.com"),
      gatewayUrl := jsOrStr (config.apiUrls.bind (fun u => u.gateway)) ("https://apigateway.payfirma.com"),
      name := "production" }

/-- The `PayfirmaSDK` constructor (PayfirmaSDK.ts lines 60-79): validates the
configuration first — synchronously, before any network activity — and only
then derives the environment and builds the services (which perform no
network calls at construction). -/
def PayfirmaSDK.construct (config : PayfirmaSDKConfig) : Except PError Environment :=
  match PayfirmaSDK.validateConfig config with
  | .error e => .error e
  | .ok _ => .ok (PayfirmaSDK.getEnvironment config (match config.sandbox with | some b => b | none => false))

/-! ## Single-flight refresh: interleaving semantics (AuthService.ts lines 144-193)

`AuthService.refreshToken` keeps a shared in-flight handle
(`tokenRefreshPromise`).  A request arriving while the handle is set returns
that same promise; a request arriving while it is clear either fails locally
(no refresh token) or starts a new network call, publishes its promise in
the handle, and the `finally` block clears the handle when the call settles,
on success and on failure alike.  The state below records the handle, the
stored credentials, how many network calls have been started and settled,
which request joined which call, and the result each request received. -/

/-- Outcome a settled refresh call delivers to every joined request. -/
inductive RefreshResult where
  | succeeded (c : AuthCredentials)
  | failed (e : PError)
deriving DecidableEq, Repr

/-- State of one `AuthService` instance as seen by the refresh coordinator.
`joined` maps request ids to the network call whose promise they await;
`resolved` records, for each settled request, the call it awaited and the
result it received; `rejectedNoToken` lists requests that failed locally
with `AuthenticationError` before any call was made. -/
structure AuthState where
  credentials : Option AuthCredentials
  tokenRefreshPromise : Option Nat
  nextCallId : Nat
  callsStarted : Nat
  callsSettled : Nat
  joined : List (Nat × Nat)
  resolved : List (Nat × Nat × RefreshResult)
  rejectedNoToken : List Nat
deriving DecidableEq, Repr

/-- An atomic event of the cooperative (single-threaded, suspension-point)
execution: a refresh request arrives at the store, or the in-flight network
call settles. -/
inductive Ev where
  | arrive (rid : Nat)
  | settle (r : RefreshResult)
deriving DecidableEq, Repr

/-- One step of the refresh coordinator, following the code of
`refreshToken`: an arriving request joins the in-flight call when the handle
is set; otherwise it fails locally without a refresh token, or starts a
fresh network call and sets the handle.  A settling call clears the handle
(the `finally`), stores the new credentials on success, and delivers its one
result to every request joined to it. -/
def stepEv (s : AuthState) : Ev → AuthState
  | .arrive rid =>
    match s.tokenRefreshPromise with
    | some c => { s with joined := (rid, c) :: s.joined }
    | none =>
      if truthyOptStr (s.credentials.bind (fun c => c.refresh_token)) then
        { s with tokenRefreshPromise := some s.nextCallId,
                 nextCallId := s.nextCallId + 1,
                 callsStarted := s.callsStarted + 1,
                 joined := (rid, s.nextCallId) :: s.joined }
      else
        { s with rejectedNoToken := rid :: s.rejectedNoToken }
  | .settle r =>
    match s.tokenRefreshPromise with
    | some c =>
      { s with tokenRefreshPromise := none,
               callsSettled := s.callsSettled + 1,
               credentials :=
                 (match r with
                  | .succeeded nc => some nc
                  | .failed _ => s.credentials),
               resolved :=
                 ((s.joined.filter (fun p => p.2 == c)).map (fun p => (p.1, c, r))) ++ s.resolved }
    | none => s

/-- Run a list of events from a state. -/
def run (s : AuthState) : List Ev → AuthState
  | [] => s
  | e :: es => run (stepEv s e) es

/-- Coordinator invariant: the handle is set exactly when one started call
has not settled; the in-flight call id is fresh and unresolved; resolved
call ids are in the allocated range; and all requests resolved against the
same call received the same result. -/
def CoordInv (s : AuthState) : Prop :=
  (match s.tokenRefreshPromise with
   | some c =>
     s.callsStarted = s.callsSettled + 1 ∧ c < s.nextCallId ∧
     (∀ e ∈ s.resolved, e.2.1 ≠ c)
   | none => s.callsStarted = s.callsSettled)
  ∧ (∀ e ∈ s.resolved, e.2.1 < s.nextCallId)
  ∧ (∀ e1 ∈ s.resolved, ∀ e2 ∈ s.resolved, e1.2.1 = e2.2.1 → e1.2.2 = e2.2.2)

/-! ## Character-level lemmas for the case transformations -/

theorem char_ofNat_toNat_small (n : Nat) (h : n < 55296) : (Char.ofNat n).toNat = n := by
  rw [Char.ofNat, dif_pos (Or.inl h)]
  rfl

theorem char_toNat_inj (c d : Char) (h : c.toNat = d.toNat) : c = d := by
  have h1 : Char.ofNat c.toNat = Char.ofNat d.toNat := by rw [h]
  rwa [Char.ofNat_toNat, Char.ofNat_toNat] at h1

theorem toLower_toNat (c : Char) (h : isUpperA c = true) :
    (Char.toLower c).toNat = c.toNat + 32 := by
  simp [isUpperA] at h
  simp [Char.toLower]
  rw [if_pos ⟨h.1, h.2⟩]
  exact char_ofNat_toNat_small _ (by omega)

theorem toUpper_toNat (c : Char) (h : isLowerA c = true) :
    (Char.toUpper c).toNat = c.toNat - 32 := by
  simp [isLowerA] at h
  simp [Char.toUpper]
  rw [if_pos ⟨h.1, h.2⟩]
  exact char_ofNat_toNat_small _ (by omega)

theorem isLowerA_toLower (c : Char) (h : isUpperA c = true) :
    isLowerA (Char.toLower c) = true := by
  have h2 := toLower_toNat c h
  simp [isUpperA] at h
  simp [isLowerA, h2]
  omega

theorem toUpper_toLower (c : Char) (h : isUpperA c = true) :
    Char.toUpper (Char.toLower c) = c := by
  apply char_toNat_inj
  rw [toUpper_toNat _ (isLowerA_toLower c h), toLower_toNat c h]
  omega

theorem isUpperA_toLower (c : Char) (h : isUpperA c = true) :
    isUpperA (Char.toLower c) = false := by
  have h2 := toLower_toNat c h
  simp [isUpperA] at h ⊢
  omega

theorem ne_underscore_of_alpha (c : Char) (h : alphaChar c = true) : ¬ (c = '_') := by
  intro hc
  subst hc
  have hf : alphaChar '_' = false := by decide
  rw [hf] at h
  exact Bool.false_ne_true h

theorem isLowerA_of_alpha_not_upper (c : Char) (ha : alphaChar c = true)
    (hu : isUpperA c = false) : isLowerA c = true := by
  simp [alphaChar, hu] at ha
  exact ha

/-! ## Lemmas about the string transformations -/

theorem snakeToCamelL_cons_ne (c : Char) (l : List Char) (hc : ¬ (c = '_')) :
    snakeToCamelL (c :: l) = c :: snakeToCamelL l := by
  cases l with
  | nil => rfl
  | cons b rest =>
    rw [snakeToCamelL]
    rw [if_neg (by intro hand; exact hc hand.1)]

/-- Per-key round trip: on a string of ASCII letters, `snakeToCamel` undoes
`camelToSnake`. -/
theorem snake_camel_key (l : List Char) (h : ∀ c ∈ l, alphaChar c = true) :
    snakeToCamelL (camelToSnakeL l) = l := by
  induction l with
  | nil => rfl
  | cons c cs ih =>
    have hc : alphaChar c = true := h c (by simp)
    have hcs : ∀ x ∈ cs, alphaChar x = true := fun x hx => h x (by simp [hx])
    by_cases hu : isUpperA c = true
    · rw [camelToSnakeL, if_pos hu]
      rw [snakeToCamelL, if_pos ⟨rfl, isLowerA_toLower c hu⟩]
      rw [toUpper_toLower c hu, ih hcs]
    · rw [camelToSnakeL, if_neg hu]
      rw [snakeToCamelL_cons_ne c _ (ne_underscore_of_alpha c hc)]
      rw [ih hcs]

/-- After `camelToSnake`, no character of the result is uppercase. -/
theorem camelToSnakeL_no_upper (l : List Char) :
    ∀ c ∈ camelToSnakeL l, isUpperA c = false := by
  induction l with
  | nil => intro c hc; simp [camelToSnakeL] at hc
  | cons a as ih =>
    intro c hc
    by_cases hu : isUpperA a = true
    · rw [camelToSnakeL, if_pos hu, List.mem_cons, List.mem_cons] at hc
      rcases hc with h1 | h2 | h3
      · subst h1; decide
      · subst h2; exact isUpperA_toLower a hu
      · exact ih c h3
    · rw [camelToSnakeL, if_neg hu, List.mem_cons] at hc
      rcases hc with h1 | h2
      · subst h1; simpa using hu
      · exact ih c h2

/-- `camelToSnake` is the identity on strings without uppercase letters. -/
theorem camelToSnakeL_id_of_no_upper (l : List Char)
    (h : ∀ c ∈ l, isUpperA c = false) : camelToSnakeL l = l := by
  induction l with
  | nil => rfl
  | cons a as ih =>
    have ha : isUpperA a = false := h a (by simp)
    rw [camelToSnakeL, if_neg (by simp [ha])]
    rw [ih (fun c hc => h c (by simp [hc]))]

/-- One application of `camelToSnake` makes a second one a no-op. -/
theorem camelToSnakeL_idem (l : List Char) :
    camelToSnakeL (camelToSnakeL l) = camelToSnakeL l :=
  camelToSnakeL_id_of_no_upper _ (camelToSnakeL_no_upper l)

theorem camelToSnake_idem (s : String) :
    camelToSnake (camelToSnake s) = camelToSnake s := by
  unfold camelToSnake
  rw [camelToSnakeL_idem]

theorem snake_camel_key_str (k : String) (h : k.data.all alphaChar = true) :
    snakeToCamel (camelToSnake k) = k := by
  unfold snakeToCamel camelToSnake
  rw [snake_camel_key k.data (by simpa [List.all_eq_true] using h)]

/-! ## Round trip and idempotence over JSON-like values -/

mutual
theorem roundtripJson (j : Json) (h : keysAlphaJson j = true) :
    transformKeysToCamel (transformKeysToSnake j) = j := by
  cases j with
  | null => rfl
  | boolVal b => rfl
  | num n => rfl
  | str s => rfl
  | arr xs =>
    rw [transformKeysToSnake, transformKeysToCamel]
    rw [roundtripJsonList xs (by simpa [keysAlphaJson] using h)]
  | obj kvs =>
    rw [transformKeysToSnake, transformKeysToCamel]
    rw [roundtripJsonFields kvs (by simpa [keysAlphaJson] using h)]

theorem roundtripJsonList (xs : JsonList) (h : keysAlphaList xs = true) :
    transformKeysToCamelList (transformKeysToSnakeList xs) = xs := by
  cases xs with
  | nil => rfl
  | cons x tl =>
    rw [keysAlphaList, Bool.and_eq_true] at h
    rw [transformKeysToSnakeList, transformKeysToCamelList]
    rw [roundtripJson x h.1, roundtripJsonList tl h.2]

theorem roundtripJsonFields (kvs : JsonFields) (h : keysAlphaFields kvs = true) :
    transformKeysToCamelFields (transformKeysToSnakeFields kvs) = kvs := by
  cases kvs with
  | nil => rfl
  | cons k v tl =>
    rw [keysAlphaFields, Bool.and_eq_true, Bool.and_eq_true] at h
    rw [transformKeysToSnakeFields, transformKeysToCamelFields]
    rw [snake_camel_key_str k h.1.1, roundtripJson v h.1.2, roundtripJsonFields tl h.2]
end

mutual
theorem snakeIdemJson (j : Json) :
    transformKeysToSnake (transformKeysToSnake j) = transformKeysToSnake j := by
  cases j with
  | null => rfl
  | boolVal b => rfl
  | num n => rfl
  | str s => rfl
  | arr xs =>
    rw [transformKeysToSnake, transformKeysToSnake, snakeIdemJsonList xs]
  | obj kvs =>
    rw [transformKeysToSnake, transformKeysToSnake, snakeIdemJsonFields kvs]

theorem snakeIdemJsonList (xs : JsonList) :
    transformKeysToSnakeList (transformKeysToSnakeList xs) = transformKeysToSnakeList xs := by
  cases xs with
  | nil => rfl
  | cons x tl =>
    rw [transformKeysToSnakeList, transformKeysToSnakeList,
      snakeIdemJson x, snakeIdemJsonList tl]

theorem snakeIdemJsonFields (kvs : JsonFields) :
    transformKeysToSnakeFields (transformKeysToSnakeFields kvs) = transformKeysToSnakeFields kvs := by
  cases kvs with
  | nil => rfl
  | cons k v tl =>
    rw [transformKeysToSnakeFields, transformKeysToSnakeFields,
      camelToSnake_idem k, snakeIdemJson v, snakeIdemJsonFields tl]
end

/-! ## The code's snakeToCamel equals the lowercase-letter scanner rule -/

theorem specGo_false_underscore (p : Char → Bool) (cs : List Char) :
    specGo p false ('_' :: cs) = specGo p true cs := by
  rw [specGo, if_pos rfl]

theorem specGo_false_other (p : Char → Bool) (c : Char) (cs : List Char) (hc : ¬ (c = '_')) :
    specGo p false (c :: cs) = c :: specGo p false cs := by
  rw [specGo, if_neg hc]

theorem specGo_true_letter (p : Char → Bool) (c : Char) (cs : List Char) (hc : p c = true) :
    specGo p true (c :: cs) = Char.toUpper c :: specGo p false cs := by
  rw [specGo, if_pos hc]

theorem specGo_true_underscore (p : Char → Bool) (cs : List Char) (hp : p '_' = false) :
    specGo p true ('_' :: cs) = '_' :: specGo p true cs := by
  rw [specGo, if_neg (by simp [hp]), if_pos rfl]

theorem specGo_true_other (p : Char → Bool) (c : Char) (cs : List Char)
    (h1 : p c = false) (h2 : ¬ (c = '_')) :
    specGo p true (c :: cs) = '_' :: c :: specGo p false cs := by
  rw [specGo, if_neg (by simp [h1]), if_neg h2]

theorem snakeToCamelL_eq_specGo_aux (n : Nat) :
    ∀ l : List Char, l.length ≤ n → snakeToCamelL l = specGo isLowerA false l := by
  induction n with
  | zero =>
    intro l hl
    have : l = [] := List.length_eq_zero.mp (Nat.le_zero.mp hl)
    subst this
    rfl
  | succ n ih =>
    intro l hl
    match l with
    | [] => rfl
    | [c] =>
      by_cases hc : c = '_'
      · subst hc; rfl
      · rw [snakeToCamelL, specGo_false_other _ _ _ hc]
        rfl
    | a :: b :: rest =>
      simp only [List.length_cons] at hl
      by_cases ha : a = '_'
      · subst ha
        rw [specGo_false_underscore]
        by_cases hb : isLowerA b = true
        · rw [snakeToCamelL, if_pos ⟨rfl, hb⟩]
          rw [specGo_true_letter _ _ _ hb]
          rw [ih rest (by omega)]
        · have hb2 : isLowerA b = false := by simpa using hb
          rw [snakeToCamelL, if_neg (by intro hand; rw [hand.2] at hb2; exact absurd hb2 (by simp))]
          rw [ih (b :: rest) (by simp; omega)]
          by_cases hbu : b = '_'
          · subst hbu
            rw [specGo_true_underscore _ _ (by decide), specGo_false_underscore]
          · rw [specGo_true_other _ _ _ hb2 hbu, specGo_false_other _ _ _ hbu]
      · rw [snakeToCamelL, if_neg (by intro hand; exact ha hand.1)]
        rw [specGo_false_other _ _ _ ha]
        rw [ih (b :: rest) (by simp; omega)]

theorem snakeToCamelL_eq_specGo (l : List Char) :
    snakeToCamelL l = specGo isLowerA false l :=
  snakeToCamelL_eq_specGo_aux l.length l (Nat.le_refl _)

/-! ## Pass-through of already-snake_case bodies -/

mutual
theorem snakeIdJson (j : Json) (h : keysNoUpperJson j = true) :
    transformKeysToSnake j = j := by
  cases j with
  | null => rfl
  | boolVal b => rfl
  | num n => rfl
  | str s => rfl
  | arr xs =>
    rw [transformKeysToSnake, snakeIdJsonList xs (by simpa [keysNoUpperJson] using h)]
  | obj kvs =>
    rw [transformKeysToSnake, snakeIdJsonFields kvs (by simpa [keysNoUpperJson] using h)]

theorem snakeIdJsonList (xs : JsonList) (h : keysNoUpperList xs = true) :
    transformKeysToSnakeList xs = xs := by
  cases xs with
  | nil => rfl
  | cons x tl =>
    rw [keysNoUpperList, Bool.and_eq_true] at h
    rw [transformKeysToSnakeList, snakeIdJson x h.1, snakeIdJsonList tl h.2]

theorem snakeIdJsonFields (kvs : JsonFields) (h : keysNoUpperFields kvs = true) :
    transformKeysToSnakeFields kvs = kvs := by
  cases kvs with
  | nil => rfl
  | cons k v tl =>
    rw [keysNoUpperFields, Bool.and_eq_true, Bool.and_eq_true] at h
    have hk : camelToSnake k = k := by
      unfold camelToSnake
      rw [camelToSnakeL_id_of_no_upper k.data
        (by simpa [List.all_eq_true] using h.1.1)]
    rw [transformKeysToSnakeFields, hk, snakeIdJson v h.1.2, snakeIdJsonFields tl h.2]
end

mutual
theorem snakeNoUpperJson (j : Json) : keysNoUpperJson (transformKeysToSnake j) = true := by
  cases j with
  | null => rfl
  | boolVal b => rfl
  | num n => rfl
  | str s => rfl
  | arr xs =>
    rw [transformKeysToSnake, keysNoUpperJson, snakeNoUpperJsonList xs]
  | obj kvs =>
    rw [transformKeysToSnake, keysNoUpperJson, snakeNoUpperJsonFields kvs]

theorem snakeNoUpperJsonList (xs : JsonList) :
    keysNoUpperList (transformKeysToSnakeList xs) = true := by
  cases xs with
  | nil => rfl
  | cons x tl =>
    rw [transformKeysToSnakeList, keysNoUpperList,
      snakeNoUpperJson x, snakeNoUpperJsonList tl]
    rfl

theorem snakeNoUpperJsonFields (kvs : JsonFields) :
    keysNoUpperFields (transformKeysToSnakeFields kvs) = true := by
  cases kvs with
  | nil => rfl
  | cons k v tl =>
    rw [transformKeysToSnakeFields, keysNoUpperFields,
      snakeNoUpperJson v, snakeNoUpperJsonFields tl]
    have hk : (camelToSnake k).data.all (fun c => !isUpperA c) = true := by
      rw [List.all_eq_true]
      intro c hc
      have := camelToSnakeL_no_upper k.data c hc
      simp [this]
    rw [hk]
    rfl
end

/-! ## Helper lemmas for validateToken -/

theorem validateToken_none (now : Int) :
    validateToken none now =
      { valid := false, expires_at := none,
        reason := some ("No credentials available"), needs_refresh := none } := rfl

theorem validateToken_fresh (c : AuthCredentials) (now : Int)
    (h : bufferTime < c.expires_at - now) :
    validateToken (some c) now =
      { valid := true, expires_at := some c.expires_at,
        reason := none, needs_refresh := none } := by
  simp only [validateToken]
  rw [if_neg (by omega)]

theorem validateToken_stale (c : AuthCredentials) (now : Int)
    (h : c.expires_at - now ≤ bufferTime) :
    validateToken (some c) now =
      { valid := false, expires_at := some c.expires_at,
        reason := some ("Token expired or expiring soon"),
        needs_refresh := some (truthyOptStr c.refresh_token) } := by
  simp only [validateToken]
  rw [if_pos h]

/-- Claim C2: validateToken is a pure, total (never-throwing) function of the
stored credentials and the current time.  With no credentials it returns
invalid with a reason; with credentials expiring more than the 5-minute
buffer after now it returns valid with the expiry; with credentials within
the buffer (or past expiry) it returns invalid with needs_refresh true
exactly when a (truthy) refresh token is present and false when absent. -/
theorem validateToken_cases :
    (∀ now : Int, validateToken none now =
      { valid := false, expires_at := none,
        reason := some ("No credentials available"), needs_refresh := none })
    ∧ (∀ (c : AuthCredentials) (now : Int), bufferTime < c.expires_at - now →
        validateToken (some c) now =
          { valid := true, expires_at := some c.expires_at,
            reason := none, needs_refresh := none })
    ∧ (∀ (c : AuthCredentials) (now : Int), c.expires_at - now ≤ bufferTime →
        validateToken (some c) now =
          { valid := false, expires_at := some c.expires_at,
            reason := some ("Token expired or expiring soon"),
            needs_refresh := some (truthyOptStr c.refresh_token) }) :=
  ⟨validateToken_none, validateToken_fresh, validateToken_stale⟩

/-- Witness for claim C2: a freshly issued token (expires_in 3600 s, so
expires_at 3 600 000 ms at now = 0) validates as valid; a token expiring in
one minute validates as invalid with needs_refresh true when a refresh token
is present and needs_refresh false when absent. -/
theorem validateToken_cases_witness :
    bufferTime < (3600000 : Int) - 0
    ∧ validateToken
        (some { access_token := "tok", refresh_token := none, expires_at := 3600000,
                merchant_id := none, scope := none }) 0 =
        { valid := true, expires_at := some (3600000 : Int),
          reason := none, needs_refresh := none }
    ∧ (60000 : Int) - 0 ≤ bufferTime
    ∧ validateToken
        (some { access_token := "tok", refresh_token := some ("r"), expires_at := 60000,
                merchant_id := none, scope := none }) 0 =
        { valid := false, expires_at := some (60000 : Int),
          reason := some ("Token expired or expiring soon"), needs_refresh := some true }
    ∧ validateToken
        (some { access_token := "tok", refresh_token := none, expires_at := 60000,
                merchant_id := none, scope := none }) 0 =
        { valid := false, expires_at := some (60000 : Int),
          reason := some ("Token expired or expiring soon"), needs_refresh := some false } :=
  ⟨by decide,
   validateToken_cases.2.1 _ 0 (by decide),
   by decide,
   validateToken_cases.2.2 _ 0 (by decide),
   validateToken_cases.2.2 _ 0 (by decide)⟩

/-! ## Claim C3: getValidToken -/

/-- Claim C3: getValidToken returns the stored access token when the token is
valid (expiry more than the 5-minute buffer away); when invalid with a
(truthy) refresh token present it performs the refresh and returns the newly
stored access token; when invalid with no refresh token, or with no
credentials at all, it fails with an AuthenticationError (no new grant is
attempted — the model has no grant path at all). -/
theorem getValidToken_cases :
    (∀ (c : AuthCredentials) (now : Int) (net : Except PError TokenResponse),
        bufferTime < c.expires_at - now →
        getValidToken (some c) now net = (.ok c.access_token, some c))
    ∧ (∀ (c : AuthCredentials) (now : Int) (t : TokenResponse),
        c.expires_at - now ≤ bufferTime → truthyOptStr c.refresh_token = true →
        getValidToken (some c) now (.ok t) =
          (.ok (credentialsFromToken now t).access_token, some (credentialsFromToken now t)))
    ∧ (∀ (c : AuthCredentials) (now : Int) (net : Except PError TokenResponse),
        c.expires_at - now ≤ bufferTime → truthyOptStr c.refresh_token = false →
        getValidToken (some c) now net =
          (.error (AuthenticationError ("No valid token available and cannot refresh") none none),
           some c))
    ∧ (∀ (now : Int) (net : Except PError TokenResponse),
        getValidToken none now net =
          (.error (AuthenticationError ("No valid token available and cannot refresh") none none),
           none)) := by
  refine ⟨fun c now net h => ?_, fun c now t h ht => ?_, fun c now net h ht => ?_,
    fun now net => ?_⟩
  · simp only [getValidToken, validateToken_fresh c now h]
    rfl
  · simp only [getValidToken, validateToken_stale c now h, ht]
    have hb : ((some c).bind fun x => x.refresh_token) = c.refresh_token := rfl
    simp only [refreshToken, tokenToUse, hb, ht]
    simp [readStoredToken]
  · simp only [getValidToken, validateToken_stale c now h, ht]
    rfl
  · rfl

/-- Witness for claim C3: at now = 0, a token with expiry 3 600 000 ms is
served directly; a token with expiry 60 000 ms and refresh token "r" is
refreshed and the new stored token returned; the same stale token without a
refresh token fails with AuthenticationError, as does an empty store. -/
theorem getValidToken_cases_witness :
    bufferTime < (3600000 : Int) - 0
    ∧ getValidToken
        (some { access_token := "tok", refresh_token := none, expires_at := 3600000,
                merchant_id := none, scope := none }) 0
        (.error (NetworkError ("boom") none)) =
        (.ok "tok",
         some { access_token := "tok", refresh_token := none, expires_at := 3600000,
                merchant_id := none, scope := none })
    ∧ (60000 : Int) - 0 ≤ bufferTime
    ∧ truthyOptStr (some ("r")) = true
    ∧ getValidToken
        (some { access_token := "old", refresh_token := some ("r"), expires_at := 60000,
                merchant_id := none, scope := none }) 0
        (.ok { access_token := "new", refresh_token := some ("r2"), expires_in := 7200,
               merchant_id := none, scope := none }) =
        (.ok "new",
         some { access_token := "new", refresh_token := some ("r2"), expires_at := 7200000,
                merchant_id := none, scope := none })
    ∧ truthyOptStr (none : Option String) = false
    ∧ getValidToken
        (some { access_token := "old", refresh_token := none, expires_at := 60000,
                merchant_id := none, scope := none }) 0
        (.error (NetworkError ("boom") none)) =
        (.error (AuthenticationError ("No valid token available and cannot refresh") none none),
         some { access_token := "old", refresh_token := none, expires_at := 60000,
                merchant_id := none, scope := none })
    ∧ getValidToken none 0 (.error (NetworkError ("boom") none)) =
        (.error (AuthenticationError ("No valid token available and cannot refresh") none none),
         none) :=
  ⟨by decide,
   getValidToken_cases.1 _ 0 _ (by decide),
   by decide,
   by decide,
   getValidToken_cases.2.1 _ 0 _ (by decide) (by decide),
   by decide,
   getValidToken_cases.2.2.1 _ 0 _ (by decide) (by decide),
   getValidToken_cases.2.2.2 0 _⟩

/-! ## Claim C8: revokeToken -/

/-- Claim C8: whatever the stored credentials and whatever the outcome of the
best-effort remote revocation call (success, HTTP error, or network error),
revokeToken leaves the store with no credentials and returns normally —
remote errors are swallowed, never propagated. -/
theorem revokeToken_clears_and_swallows :
    ∀ (credentials : Option AuthCredentials) (remote : RevokeRemoteOutcome),
      (revokeToken credentials remote).credentials = none
      ∧ (revokeToken credentials remote).returned = .ok () := by
  intro credentials remote
  cases credentials <;> cases remote <;> exact ⟨rfl, rfl⟩

/-! ## Claim C9: configuration validation -/

/-- Claim C9 counterexample: the configuration with timeout 0 — a value
outside [1000 ms, 300000 ms] — does not make construction fail, because the
guard `config.timeout && ...` treats the falsy 0 as "not provided".  The
claim as stated (every out-of-range timeout raises ConfigurationError) is
therefore false at this input. -/
theorem validateConfig_timeout_zero :
    PayfirmaSDK.validateConfig
      { clientId := "id", clientSecret := "secret", sandbox := none,
        timeout := some 0, apiUrls := none } = .ok ()
    ∧ PayfirmaSDK.construct
      { clientId := "id", clientSecret := "secret", sandbox := none,
        timeout := some 0, apiUrls := none } =
      .ok { authUrl := "https://auth.payfirma.com",
            gatewayUrl := "https://apigateway.payfirma.com", name := "production" }
    ∧ ((0 : Int) < 1000 ∨ 300000 < (0 : Int)) :=
  ⟨rfl, rfl, Or.inl (by decide)⟩

/-- Claim C9 (amended): construction fails — synchronously, with a
ConfigurationError, before any network activity — exactly when the clientId
is empty, the clientSecret is empty, or the timeout is set, nonzero and
outside [1000 ms, 300000 ms]; a timeout of 0 is treated as unset.  Every
construction error is the validator's ConfigurationError. -/
theorem validateConfig_spec (config : PayfirmaSDKConfig) :
    ((∃ e, PayfirmaSDK.validateConfig config = .error e)
      ↔ (config.clientId = "" ∨ config.clientSecret = "" ∨
          (∃ t, config.timeout = some t ∧ t ≠ 0 ∧ (t < 1000 ∨ 300000 < t))))
    ∧ (∀ e, PayfirmaSDK.validateConfig config = .error e → e.name = "ConfigurationError")
    ∧ (∀ e, PayfirmaSDK.construct config = .error e ↔
        PayfirmaSDK.validateConfig config = .error e) := by
  have hguard : timeoutGuard config.timeout = true ↔
      (∃ t, config.timeout = some t ∧ t ≠ 0 ∧ (t < 1000 ∨ 300000 < t)) := by
    cases ht : config.timeout with
    | none => simp [timeoutGuard]
    | some t =>
      simp only [timeoutGuard, Option.some.injEq]
      constructor
      · intro hc
        refine ⟨t, rfl, ?_⟩
        by_cases h3 : t ≠ 0 ∧ (t < 1000 ∨ t > 300000)
        · exact ⟨h3.1, by omega⟩
        · rw [if_neg h3] at hc
          exact absurd hc (by simp)
      · intro ⟨t2, ht2, hne, hrange⟩
        cases ht2
        rw [if_pos ⟨hne, by omega⟩]
  refine ⟨?_, ?_, ?_⟩
  · unfold PayfirmaSDK.validateConfig
    by_cases h1 : config.clientId = ""
    · simp [h1]
    · rw [if_neg h1]
      by_cases h2 : config.clientSecret = ""
      · simp [h1, h2]
      · rw [if_neg h2]
        by_cases h3 : timeoutGuard config.timeout = true
        · rw [if_pos h3]
          simp [h1, h2, hguard.mp h3]
        · rw [if_neg h3]
          have h4 : ¬ (∃ t, config.timeout = some t ∧ t ≠ 0 ∧ (t < 1000 ∨ 300000 < t)) :=
            fun hex => h3 (hguard.mpr hex)
          simp [h1, h2, h4]
  · intro e he
    unfold PayfirmaSDK.validateConfig at he
    by_cases h1 : config.clientId = ""
    · rw [if_pos h1] at he
      cases he
      rfl
    · rw [if_neg h1] at he
      by_cases h2 : config.clientSecret = ""
      · rw [if_pos h2] at he
        cases he
        rfl
      · rw [if_neg h2] at he
        by_cases h3 : timeoutGuard config.timeout = true
        · rw [if_pos h3] at he
          cases he
          rfl
        · rw [if_neg h3] at he
          cases he
  · intro e
    unfold PayfirmaSDK.construct
    cases hv : PayfirmaSDK.validateConfig config with
    | error e2 => simp
    | ok u => simp

/-! ## Claim C4: the error classifier -/

/-- Claim C4: the service-boundary classifier is a total function from
terminal HTTP outcomes to typed errors dispatching on the body's error-code
string.  A 404 response whose body carries code CUSTOMER_NOT_FOUND yields a
NotFoundError; an unmatched code such as WEIRD_CODE with HTTP status 500
yields an ApiError carrying status 500 and that code; and the complete
absence of an HTTP response with the request present (network-layer failure)
always yields a NetworkError, whatever the error message — there is no code
string in that case. -/
theorem error_classifier_cases :
    (∀ (req : Bool) (msg : String),
        (PlanService.handleError (notFoundOutcome req msg)).name = "NotFoundError"
        ∧ (PlanService.handleError (notFoundOutcome req msg)).statusCode = some 404)
    ∧ (∀ (req : Bool) (msg : String),
        (PlanService.handleError (weirdCodeOutcome req msg)).name = "ApiError"
        ∧ (PlanService.handleError (weirdCodeOutcome req msg)).statusCode = some 500
        ∧ (PlanService.handleError (weirdCodeOutcome req msg)).code = "WEIRD_CODE")
    ∧ (∀ (msg : String),
        PlanService.handleError (noResponseOutcome msg) =
          NetworkError ("Network error in plan service") none) := by
  refine ⟨fun req msg => ⟨rfl, rfl⟩, fun req msg => ⟨rfl, rfl, rfl⟩, fun msg => rfl⟩

/-! ## Claim C5: timeouts are not classified as timeout failures -/

/-- Claim C5 fails on the code (code bug): the fetch-based HttpClient maps an
aborted (timed-out) request to a plain `Error` with neither a response nor a
request field, and the service classifier then produces an ApiError with
code UNKNOWN_ERROR and status 500 — not a failure carrying the (declared but
never used) TIMEOUT_ERROR code, and not even the generic NetworkError. -/
theorem timeout_not_timeout_classified :
    (PlanService.handleError (HttpClient.timeoutError 50)).name = "ApiError"
    ∧ (PlanService.handleError (HttpClient.timeoutError 50)).code = "UNKNOWN_ERROR"
    ∧ (PlanService.handleError (HttpClient.timeoutError 50)).statusCode = some 500
    ∧ ¬ ((PlanService.handleError (HttpClient.timeoutError 50)).code = "TIMEOUT_ERROR")
    ∧ ¬ ((PlanService.handleError (HttpClient.timeoutError 50)).name = "NetworkError") := by
  refine ⟨rfl, rfl, rfl, by decide, by decide⟩

/-! ## Claim C6: round trip of the key-case transformation -/

/-- Claim C6: on every JSON-like value all of whose mapping keys, at every
nesting depth, consist only of ASCII letters, transformKeysToCamel undoes
transformKeysToSnake. -/
theorem transform_keys_round_trip (j : Json) (h : keysAlphaJson j = true) :
    transformKeysToCamel (transformKeysToSnake j) = j :=
  roundtripJson j h

/-- Witness for claim C6: a nested object with letters-only keys (including
an uppercase-initial key and a nested array of objects) round-trips. -/
theorem transform_keys_round_trip_witness :
    keysAlphaJson
      (Json.obj (.cons "fooBar" (.num 1)
        (.cons "Baz" (.arr (.cons (.obj (.cons "innerKey" (.str "v") .nil)) .nil)) .nil))) = true
    ∧ transformKeysToCamel (transformKeysToSnake
        (Json.obj (.cons "fooBar" (.num 1)
          (.cons "Baz" (.arr (.cons (.obj (.cons "innerKey" (.str "v") .nil)) .nil)) .nil)))) =
      Json.obj (.cons "fooBar" (.num 1)
        (.cons "Baz" (.arr (.cons (.obj (.cons "innerKey" (.str "v") .nil)) .nil)) .nil)) :=
  ⟨by decide, transform_keys_round_trip _ (by decide)⟩

/-! ## Claim C7: the snakeToCamel rule -/

/-- Claim C7 counterexample: the claimed rule (every underscore-letter pair,
whatever the case of the letter) disagrees with the code on "foo_Bar": the
code's regex only matches underscore followed by a lowercase letter, so the
code leaves "foo_Bar" unchanged while the claimed rule yields "fooBar". -/
theorem snakeToCamel_any_letter_counterexample :
    snakeToCamel ("foo_Bar") = "foo_Bar"
    ∧ snakeToCamelSpecAny ("foo_Bar") = "fooBar"
    ∧ ¬ (snakeToCamel ("foo_Bar") = snakeToCamelSpecAny ("foo_Bar")) :=
  ⟨by decide, by decide, by decide⟩

/-- Claim C7 (amended): for every input string, snakeToCamel equals the
left-to-right scan that removes each underscore followed by a LOWERCASE
ASCII letter and upper-cases that letter; underscores followed by anything
else (including uppercase letters) are kept verbatim. -/
theorem snakeToCamel_eq_lowercase_rule (s : String) :
    snakeToCamel s = snakeToCamelSpecLower s := by
  unfold snakeToCamel snakeToCamelSpecLower
  rw [snakeToCamelL_eq_specGo]

/-! ## Claim C10: idempotence of the outbound transformation -/

/-- Claim C10: transformKeysToSnake is idempotent on every JSON-like value;
one application leaves no uppercase ASCII letter in any key, and on values
whose keys already contain no uppercase letters (snake_case request bodies)
the transformation is the identity. -/
theorem transformKeysToSnake_idem :
    (∀ j : Json, transformKeysToSnake (transformKeysToSnake j) = transformKeysToSnake j)
    ∧ (∀ j : Json, keysNoUpperJson (transformKeysToSnake j) = true)
    ∧ (∀ j : Json, keysNoUpperJson j = true → transformKeysToSnake j = j) :=
  ⟨snakeIdemJson, snakeNoUpperJson, snakeIdJson⟩

/-- Witness for claim C10: an already-snake_case body passes through
unchanged. -/
theorem transformKeysToSnake_idem_witness :
    keysNoUpperJson
      (Json.obj (.cons "first_name" (.str "x")
        (.cons "card_expiry_month" (.num 12) .nil))) = true
    ∧ transformKeysToSnake
        (Json.obj (.cons "first_name" (.str "x")
          (.cons "card_expiry_month" (.num 12) .nil))) =
      Json.obj (.cons "first_name" (.str "x")
        (.cons "card_expiry_month" (.num 12) .nil)) :=
  ⟨by decide, transformKeysToSnake_idem.2.2 _ (by decide)⟩

/-! ## Claim C1: single-flight refresh -/

theorem coordInv_step (s : AuthState) (e : Ev) (h : CoordInv s) : CoordInv (stepEv s e) := by
  obtain ⟨h1, h2, h3⟩ := h
  cases e with
  | arrive rid =>
    cases hP : s.tokenRefreshPromise with
    | some c =>
      rw [hP] at h1
      simp only [CoordInv, stepEv, hP]
      exact ⟨h1, h2, h3⟩
    | none =>
      rw [hP] at h1
      by_cases ht : truthyOptStr (s.credentials.bind (fun c => c.refresh_token)) = true
      · simp only [CoordInv, stepEv, hP, ht, if_pos]
        refine ⟨⟨by omega, by omega, fun e he => by have := h2 e he; omega⟩, ?_, h3⟩
        intro e he
        have := h2 e he
        omega
      · have ht2 : truthyOptStr (s.credentials.bind (fun c => c.refresh_token)) = false := by
          simpa using ht
        simp only [CoordInv, stepEv, hP, ht2, Bool.false_eq_true, if_false]
        exact ⟨h1, h2, h3⟩
  | settle r =>
    cases hP : s.tokenRefreshPromise with
    | some c =>
      rw [hP] at h1
      obtain ⟨hc1, hc2, hc3⟩ := h1
      simp only [CoordInv, stepEv, hP]
      refine ⟨by omega, ?_, ?_⟩
      · intro e he
        rw [List.mem_append] at he
        rcases he with he | he
        · rw [List.mem_map] at he
          obtain ⟨p, hp, hpe⟩ := he
          rw [← hpe]
          exact hc2
        · exact h2 e he
      · intro e1 he1 e2 he2 hcall
        rw [List.mem_append] at he1 he2
        rcases he1 with he1 | he1 <;> rcases he2 with he2 | he2
        · rw [List.mem_map] at he1 he2
          obtain ⟨p1, hp1, hpe1⟩ := he1
          obtain ⟨p2, hp2, hpe2⟩ := he2
          rw [← hpe1, ← hpe2]
        · rw [List.mem_map] at he1
          obtain ⟨p1, hp1, hpe1⟩ := he1
          have hcc : e1.2.1 = c := by rw [← hpe1]
          rw [hcc] at hcall
          exact absurd hcall.symm (hc3 e2 he2)
        · rw [List.mem_map] at he2
          obtain ⟨p2, hp2, hpe2⟩ := he2
          have hcc : e2.2.1 = c := by rw [← hpe2]
          rw [hcc] at hcall
          exact absurd hcall (hc3 e1 he1)
        · exact h3 e1 he1 e2 he2 hcall
    | none =>
      rw [hP] at h1
      simp only [CoordInv, stepEv, hP]
      exact ⟨h1, h2, h3⟩

theorem coordInv_run (s : AuthState) (evs : List Ev) (h : CoordInv s) :
    CoordInv (run s evs) := by
  induction evs generalizing s with
  | nil => exact h
  | cons e es ih => exact ih (stepEv s e) (coordInv_step s e h)

theorem callsInFlight_le_one (s : AuthState) (h : CoordInv s) :
    s.callsStarted - s.callsSettled ≤ 1 := by
  obtain ⟨h1, h2, h3⟩ := h
  cases hP : s.tokenRefreshPromise with
  | some c =>
    rw [hP] at h1
    omega
  | none =>
    rw [hP] at h1
    omega

/-- Claim C1: single-flight refresh.  For every interleaving of refresh
requests and call completions (`evs`) started from a state satisfying the
coordinator invariant — in particular the ExpiringSoon state with a refresh
token present and no call in flight — the run maintains the invariant and:
(1) at most one refresh network call is ever in flight; (2) any two requests
resolved against the same network call received the same result, success or
failure; (3) a request arriving while the in-flight handle is set only joins
that same call — the state changes by recording the join and no new network
call is started; (4) when the in-flight call settles the handle is cleared,
on success and on failure alike; and (5) a request arriving while the handle
is clear, with a refresh token stored, starts exactly one fresh network call
and publishes its handle. -/
theorem single_flight_refresh (s0 : AuthState) (evs : List Ev) (h0 : CoordInv s0) :
    (run s0 evs).callsStarted - (run s0 evs).callsSettled ≤ 1
    ∧ (∀ e1 ∈ (run s0 evs).resolved, ∀ e2 ∈ (run s0 evs).resolved,
        e1.2.1 = e2.2.1 → e1.2.2 = e2.2.2)
    ∧ (∀ rid c, (run s0 evs).tokenRefreshPromise = some c →
        stepEv (run s0 evs) (.arrive rid) =
          { run s0 evs with joined := (rid, c) :: (run s0 evs).joined })
    ∧ (∀ r, (stepEv (run s0 evs) (.settle r)).tokenRefreshPromise = none)
    ∧ (∀ rid, (run s0 evs).tokenRefreshPromise = none →
        truthyOptStr ((run s0 evs).credentials.bind (fun c => c.refresh_token)) = true →
        (stepEv (run s0 evs) (.arrive rid)).callsStarted = (run s0 evs).callsStarted + 1
        ∧ (stepEv (run s0 evs) (.arrive rid)).tokenRefreshPromise =
            some (run s0 evs).nextCallId) := by
  have hinv := coordInv_run s0 evs h0
  refine ⟨callsInFlight_le_one _ hinv, hinv.2.2, ?_, ?_, ?_⟩
  · intro rid c hP
    simp only [stepEv, hP]
  · intro r
    cases hP : (run s0 evs).tokenRefreshPromise with
    | some c => simp only [stepEv, hP]
    | none => simp only [stepEv, hP]
  · intro rid hP ht
    simp [stepEv, hP, ht]

/-- Witness for claim C1: from the ExpiringSoon state (a stored token that
expires soon, refresh token "r", no call in flight), the trace "request 0
arrives, request 1 arrives, the call fails, request 2 arrives, the call
succeeds" satisfies the invariant hypothesis and all five conclusions. -/
theorem single_flight_refresh_witness :
    CoordInv
      { credentials := some { access_token := "tok", refresh_token := some ("r"),
                              expires_at := 60000, merchant_id := none, scope := none },
        tokenRefreshPromise := none, nextCallId := 0, callsStarted := 0, callsSettled := 0,
        joined := [], resolved := [], rejectedNoToken := [] }
    ∧ ((run
        { credentials := some { access_token := "tok", refresh_token := some ("r"),
                                expires_at := 60000, merchant_id := none, scope := none },
          tokenRefreshPromise := none, nextCallId := 0, callsStarted := 0, callsSettled := 0,
          joined := [], resolved := [], rejectedNoToken := [] }
        [Ev.arrive 0, Ev.arrive 1,
         Ev.settle (.failed (NetworkError ("refresh failed") none)),
         Ev.arrive 2,
         Ev.settle (.succeeded { access_token := "new", refresh_token := some ("r2"),
                                 expires_at := 7200000, merchant_id := none, scope := none })]).callsStarted -
       (run
        { credentials := some { access_token := "tok", refresh_token := some ("r"),
                                expires_at := 60000, merchant_id := none, scope := none },
          tokenRefreshPromise := none, nextCallId := 0, callsStarted := 0, callsSettled := 0,
          joined := [], resolved := [], rejectedNoToken := [] }
        [Ev.arrive 0, Ev.arrive 1,
         Ev.settle (.failed (NetworkError ("refresh failed") none)),
         Ev.arrive 2,
         Ev.settle (.succeeded { access_token := "new", refresh_token := some ("r2"),
                                 expires_at := 7200000, merchant_id := none, scope := none })]).callsSettled ≤ 1
      ∧ (∀ e1 ∈ (run
          { credentials := some { access_token := "tok", refresh_token := some ("r"),
                                  expires_at := 60000, merchant_id := none, scope := none },
            tokenRefreshPromise := none, nextCallId := 0, callsStarted := 0, callsSettled := 0,
            joined := [], resolved := [], rejectedNoToken := [] }
          [Ev.arrive 0, Ev.arrive 1,
           Ev.settle (.failed (NetworkError ("refresh failed") none)),
           Ev.arrive 2,
           Ev.settle (.succeeded { access_token := "new", refresh_token := some ("r2"),
                                   expires_at := 7200000, merchant_id := none, scope := none })]).resolved,
          ∀ e2 ∈ (run
          { credentials := some { access_token := "tok", refresh_token := some ("r"),
                                  expires_at := 60000, merchant_id := none, scope := none },
            tokenRefreshPromise := none, nextCallId := 0, callsStarted := 0, callsSettled := 0,
            joined := [], resolved := [], rejectedNoToken := [] }
          [Ev.arrive 0, Ev.arrive 1,
           Ev.settle (.failed (NetworkError ("refresh failed") none)),
           Ev.arrive 2,
           Ev.settle (.succeeded { access_token := "new", refresh_token := some ("r2"),
                                   expires_at := 7200000, merchant_id := none, scope := none })]).resolved,
          e1.2.1 = e2.2.1 → e1.2.2 = e2.2.2)
      ∧ (∀ rid c, (run
          { credentials := some { access_token := "tok", refresh_token := some ("r"),
                                  expires_at := 60000, merchant_id := none, scope := none },
            tokenRefreshPromise := none, nextCallId := 0, callsStarted := 0, callsSettled := 0,
            joined := [], resolved := [], rejectedNoToken := [] }
          [Ev.arrive 0, Ev.arrive 1,
           Ev.settle (.failed (NetworkError ("refresh failed") none)),
           Ev.arrive 2,
           Ev.settle (.succeeded { access_token := "new", refresh_token := some ("r2"),
                                   expires_at := 7200000, merchant_id := none, scope := none })]).tokenRefreshPromise = some c →
          stepEv (run
          { credentials := some { access_token := "tok", refresh_token := some ("r"),
                                  expires_at := 60000, merchant_id := none, scope := none },
            tokenRefreshPromise := none, nextCallId := 0, callsStarted := 0, callsSettled := 0,
            joined := [], resolved := [], rejectedNoToken := [] }
          [Ev.arrive 0, Ev.arrive 1,
           Ev.settle (.failed (NetworkError ("refresh failed") none)),
           Ev.arrive 2,
           Ev.settle (.succeeded { access_token := "new", refresh_token := some ("r2"),
                                   expires_at := 7200000, merchant_id := none, scope := none })]) (.arrive rid) =
            { run
          { credentials := some { access_token := "tok", refresh_token := some ("r"),
                                  expires_at := 60000, merchant_id := none, scope := none },
            tokenRefreshPromise := none, nextCallId := 0, callsStarted := 0, callsSettled := 0,
            joined := [], resolved := [], rejectedNoToken := [] }
          [Ev.arrive 0, Ev.arrive 1,
           Ev.settle (.failed (NetworkError ("refresh failed") none)),
           Ev.arrive 2,
           Ev.settle (.succeeded { access_token := "new", refresh_token := some ("r2"),
                                   expires_at := 7200000, merchant_id := none, scope := none })] with
              joined := (rid, c) :: (run
          { credentials := some { access_token := "tok", refresh_token := some ("r"),
                                  expires_at := 60000, merchant_id := none, scope := none },
            tokenRefreshPromise := none, nextCallId := 0, callsStarted := 0, callsSettled := 0,
            joined := [], resolved := [], rejectedNoToken := [] }
          [Ev.arrive 0, Ev.arrive 1,
           Ev.settle (.failed (NetworkError ("refresh failed") none)),
           Ev.arrive 2,
           Ev.settle (.succeeded { access_token := "new", refresh_token := some ("r2"),
                                   expires_at := 7200000, merchant_id := none, scope := none })]).joined })
      ∧ (∀ r, (stepEv (run
          { credentials := some { access_token := "tok", refresh_token := some ("r"),
                                  expires_at := 60000, merchant_id := none, scope := none },
            tokenRefreshPromise := none, nextCallId := 0, callsStarted := 0, callsSettled := 0,
            joined := [], resolved := [], rejectedNoToken := [] }
          [Ev.arrive 0, Ev.arrive 1,
           Ev.settle (.failed (NetworkError ("refresh failed") none)),
           Ev.arrive 2,
           Ev.settle (.succeeded { access_token := "new", refresh_token := some ("r2"),
                                   expires_at := 7200000, merchant_id := none, scope := none })]) (.settle r)).tokenRefreshPromise = none)
      ∧ (∀ rid, (run
          { credentials := some { access_token := "tok", refresh_token := some ("r"),
                                  expires_at := 60000, merchant_id := none, scope := none },
            tokenRefreshPromise := none, nextCallId := 0, callsStarted := 0, callsSettled := 0,
            joined := [], resolved := [], rejectedNoToken := [] }
          [Ev.arrive 0, Ev.arrive 1,
           Ev.settle (.failed (NetworkError ("refresh failed") none)),
           Ev.arrive 2,
           Ev.settle (.succeeded { access_token := "new", refresh_token := some ("r2"),
                                   expires_at := 7200000, merchant_id := none, scope := none })]).tokenRefreshPromise = none →
          truthyOptStr ((run
          { credentials := some { access_token := "tok", refresh_token := some ("r"),
                                  expires_at := 60000, merchant_id := none, scope := none },
            tokenRefreshPromise := none, nextCallId := 0, callsStarted := 0, callsSettled := 0,
            joined := [], resolved := [], rejectedNoToken := [] }
          [Ev.arrive 0, Ev.arrive 1,
           Ev.settle (.failed (NetworkError ("refresh failed") none)),
           Ev.arrive 2,
           Ev.settle (.succeeded { access_token := "new", refresh_token := some ("r2"),
                                   expires_at := 7200000, merchant_id := none, scope := none })]).credentials.bind (fun c => c.refresh_token)) = true →
          (stepEv (run
          { credentials := some { access_token := "tok", refresh_token := some ("r"),
                                  expires_at := 60000, merchant_id := none, scope := none },
            tokenRefreshPromise := none, nextCallId := 0, callsStarted := 0, callsSettled := 0,
            joined := [], resolved := [], rejectedNoToken := [] }
          [Ev.arrive 0, Ev.arrive 1,
           Ev.settle (.failed (NetworkError ("refresh failed") none)),
           Ev.arrive 2,
           Ev.settle (.succeeded { access_token := "new", refresh_token := some ("r2"),
                                   expires_at := 7200000, merchant_id := none, scope := none })]) (.arrive rid)).callsStarted =
            (run
          { credentials := some { access_token := "tok", refresh_token := some ("r"),
                                  expires_at := 60000, merchant_id := none, scope := none },
            tokenRefreshPromise := none, nextCallId := 0, callsStarted := 0, callsSettled := 0,
            joined := [], resolved := [], rejectedNoToken := [] }
          [Ev.arrive 0, Ev.arrive 1,
           Ev.settle (.failed (NetworkError ("refresh failed") none)),
           Ev.arrive 2,
           Ev.settle (.succeeded { access_token := "new", refresh_token := some ("r2"),
                                   expires_at := 7200000, merchant_id := none, scope := none })]).callsStarted + 1
          ∧ (stepEv (run
          { credentials := some { access_token := "tok", refresh_token := some ("r"),
                                  expires_at := 60000, merchant_id := none, scope := none },
            tokenRefreshPromise := none, nextCallId := 0, callsStarted := 0, callsSettled := 0,
            joined := [], resolved := [], rejectedNoToken := [] }
          [Ev.arrive 0, Ev.arrive 1,
           Ev.settle (.failed (NetworkError ("refresh failed") none)),
           Ev.arrive 2,
           Ev.settle (.succeeded { access_token := "new", refresh_token := some ("r2"),
                                   expires_at := 7200000, merchant_id := none, scope := none })]) (.arrive rid)).tokenRefreshPromise =
            some (run
          { credentials := some { access_token := "tok", refresh_token := some ("r"),
                                  expires_at := 60000, merchant_id := none, scope := none },
            tokenRefreshPromise := none, nextCallId := 0, callsStarted := 0, callsSettled := 0,
            joined := [], resolved := [], rejectedNoToken := [] }
          [Ev.arrive 0, Ev.arrive 1,
           Ev.settle (.failed (NetworkError ("refresh failed") none)),
           Ev.arrive 2,
           Ev.settle (.succeeded { access_token := "new", refresh_token := some ("r2"),
                                   expires_at := 7200000, merchant_id := none, scope := none })]).nextCallId)) :=
  ⟨by unfold CoordInv; decide,
   single_flight_refresh
     { credentials := some { access_token := "tok", refresh_token := some ("r"),
                             expires_at := 60000, merchant_id := none, scope := none },
       tokenRefreshPromise := none, nextCallId := 0, callsStarted := 0, callsSettled := 0,
       joined := [], resolved := [], rejectedNoToken := [] }
     [Ev.arrive 0, Ev.arrive 1,
      Ev.settle (.failed (NetworkError ("refresh failed") none)),
      Ev.arrive 2,
      Ev.settle (.succeeded { access_token := "new", refresh_token := some ("r2"),
                              expires_at := 7200000, merchant_id := none, scope := none })]
     (by unfold CoordInv; decide)⟩
